import Mathlib

/-!
Verification of the ConvoETL extraction-load orchestration core
(`convoetl/flows/extraction.py`, `convoetl/flows/orchestration.py`,
`convoetl/loaders/sqlite.py`, `convoetl/core/pipeline.py`) against its
natural-language specification.

The Python code is shallowly embedded: the SQLite store becomes a list of
message rows (`DBState`), `store_messages` a transaction that either appends
the whole batch or rolls back with an `IntegrityError` on a primary-key
conflict, and the Prefect flows become fuel-indexed recursive functions that
thread the store state explicitly.  The platform extractor is external to the
repository (`tgdata`); per the external-interface contract it is embedded as
`staticExtract`: the first `limit` messages of the source whose id exceeds
`after_id`.  Wall-clock fields (timestamps, durations, retry delays) and the
auxiliary `users`/`chats` tables are not modelled; no claim mentions them.
-/

namespace ConvoETL

/-- One row of the `messages` table (`sqlite.py`, `_create_tables`).  Only the
behaviourally relevant columns are kept; the primary key is
`(message_id, platform, chat_id)`. -/
structure Message where
  message_id : Nat
  platform : String
  chat_id : String
  user_id : Nat
  message_text : String
deriving Repr, DecidableEq

/-- The durable SQLite state: the contents of the `messages` table. -/
structure DBState where
  messages : List Message
deriving Repr, DecidableEq

/-- Strict order on message ids, used to state that a static source is
listed in increasing id order. -/
abbrev idLt (a b : Message) : Prop := a.message_id < b.message_id

/-- Primary-key equality on `messages` rows: `(message_id, platform, chat_id)`. -/
def pkEq (a b : Message) : Bool :=
  a.message_id == b.message_id && a.platform == b.platform && a.chat_id == b.chat_id

/-- Does some row of the batch collide with an already stored row on the
primary key?  Such a collision makes the multi-row `INSERT` issued by
`DataFrame.to_sql(..., if_exists='append')` fail. -/
def batchHasConflict (stored batch : List Message) : Bool :=
  batch.any (fun m => stored.any (fun m' => pkEq m m'))

/-- Does the batch itself contain two rows with the same primary key? -/
def batchHasInternalDup : List Message → Bool
  | [] => false
  | m :: rest => rest.any (fun m' => pkEq m m') || batchHasInternalDup rest

/-- `SQLiteLoader.store_messages` (`sqlite.py:165-203`): empty frames store
nothing and report 0; otherwise the batch is inserted in one transaction.
A primary-key conflict raises `IntegrityError` and the transaction is rolled
back (`self.conn.rollback()`), so the state component of the error case is
the unchanged input state.  The `extracted_at` stamp and the user-statistics
update touch columns/tables outside this model. -/
def store_messages (db : DBState) (batch : List Message) : DBState × Except String Nat :=
  if batch.isEmpty then (db, Except.ok 0)
  else if batchHasConflict db.messages batch || batchHasInternalDup batch then
    (db, Except.error "IntegrityError")
  else ({ messages := db.messages ++ batch }, Except.ok batch.length)

/-- `load_messages_task` (`extraction.py:73-105`): returns 0 for an empty
frame without touching the store, otherwise defers to `store_messages`. -/
def load_messages_task (db : DBState) (batch : List Message) : DBState × Except String Nat :=
  if batch.isEmpty then (db, Except.ok 0) else store_messages db batch

/-- The rows of the `messages` table matching `chat_id = source_id AND
platform = platform` (the `WHERE` clause of `get_last_message_id`). -/
def rowsFor (db : DBState) (source_id platform : String) : List Message :=
  db.messages.filter (fun m => m.chat_id == source_id && m.platform == platform)

/-- The id maximum computed by the flows over a frame
(`messages_df['message_id'].max()`), and by `MAX(message_id)` over a row set. -/
def maxIdOf (l : List Message) : Nat :=
  l.foldl (fun acc m => max acc m.message_id) 0

/-- `SELECT MAX(message_id) FROM messages WHERE chat_id = ? AND platform = ?`:
SQL `MAX` is `NULL` exactly when no row matches. -/
def sqlMaxMessageId (db : DBState) (source_id platform : String) : Option Nat :=
  if (rowsFor db source_id platform).isEmpty then none
  else some (maxIdOf (rowsFor db source_id platform))

/-- `SQLiteLoader.get_last_message_id` (`sqlite.py:238-256`): the Python
return expression is `result[0] if result and result[0] else None`, so both
`NULL` and the integer `0` come back as `None`. -/
def get_last_message_id (db : DBState) (source_id platform : String) : Option Nat :=
  match sqlMaxMessageId db source_id platform with
  | none => none
  | some v => if v = 0 then none else some v

/-- The checkpoint value a consumer of `get_last_message_id` acts on: an
absent checkpoint is treated as 0 (`after_id or 0` in the extractor call). -/
def checkpointValue (db : DBState) (source_id platform : String) : Nat :=
  (get_last_message_id db source_id platform).getD 0

/-- The messages of a static source with id strictly above `a`. -/
def afterFilter (src : List Message) (a : Nat) : List Message :=
  src.filter (fun m => decide (a < m.message_id))

/-- The external extractor contract (spec section 6, realised by
`TelegramExtractor.extract_messages` via `tgdata.get_messages`): for a static
source it returns the first `limit` messages with id strictly greater than
`after_id`, in increasing id order. -/
def staticExtract (src : List Message) (after_id limit : Nat) : List Message :=
  (afterFilter src after_id).take limit

/-- The body of `extract_messages_task` (`extraction.py:23-64`): any platform
other than `"telegram"` raises `ValueError("Unsupported platform: ...")`
before the extractor is even constructed. -/
def extract_messages_body (platform : String) (src : List Message)
    (after_id limit : Nat) : Except String (List Message) :=
  if platform == "telegram" then Except.ok (staticExtract src after_id limit)
  else Except.error ("Unsupported platform: " ++ platform)

/-- Prefect's task retry loop: run attempt `attempt`; on failure with
`remaining` retries left, wait the configured delay and run again.  Returns
the final outcome together with the number of attempts executed.  Prefect
retries on every exception; the `@task` decorators in this repository set no
`retry_condition_fn`, so no error class is exempt. -/
def retryAttempts (f : Nat → Except String α) : Nat → Nat → Except String α × Nat
  | attempt, 0 => (f attempt, attempt + 1)
  | attempt, remaining + 1 =>
    match f attempt with
    | Except.ok a => (Except.ok a, attempt + 1)
    | Except.error _ => retryAttempts f (attempt + 1) remaining

/-- Run a task body under `retries` Prefect retries (so at most
`retries + 1` attempts). -/
def runTaskWithRetries (retries : Nat) (f : Nat → Except String α) :
    Except String α × Nat :=
  retryAttempts f 0 retries

/-- `@task(retries=3, ...)` on `extract_messages_task` (`extraction.py:15-22`). -/
def extractRetries : Nat := 3

/-- `retry_delay_seconds=60` on `extract_messages_task`. -/
def extractRetryDelaySeconds : Nat := 60

/-- `extract_messages_task` as observed by a flow: outcome of the retried
body, paired with the number of attempts Prefect executed. -/
def extract_messages_task (platform : String) (src : List Message)
    (after_id limit : Nat) : Except String (List Message) × Nat :=
  runTaskWithRetries extractRetries
    (fun _ => extract_messages_body platform src after_id limit)

/-- Result dictionary of `backfill_flow` (`extraction.py:199-205`). -/
structure BackfillResult where
  status : String
  total_messages : Nat
  last_message_id : Nat
deriving Repr, DecidableEq

/-- The `while True` loop of `backfill_flow` (`extraction.py:171-195`),
indexed by fuel (the Python loop is unbounded; `src.length + 1` fuel is
always enough because every full batch strictly shrinks the remainder).
The middle component of the result counts the extraction batches issued —
pure instrumentation, it influences nothing.  Note the loop starts from
`last_message_id = 0` and never consults the stored checkpoint. -/
def backfillLoop (platform : String) (src : List Message) (db : DBState)
    (batch_size last_message_id total batches : Nat) :
    Nat → DBState × Nat × Except String BackfillResult
  | 0 => (db, batches, Except.error "loop fuel exhausted")
  | fuel + 1 =>
    match (extract_messages_task platform src last_message_id batch_size).1 with
    | Except.error e => (db, batches + 1, Except.error e)
    | Except.ok batch =>
      if batch.isEmpty then
        (db, batches + 1,
          Except.ok { status := "completed", total_messages := total,
                      last_message_id := last_message_id })
      else
        match load_messages_task db batch with
        | (db', Except.error e) => (db', batches + 1, Except.error e)
        | (db', Except.ok count) =>
          if batch.length < batch_size then
            (db', batches + 1,
              Except.ok { status := "completed", total_messages := total + count,
                          last_message_id := maxIdOf batch })
          else
            backfillLoop platform src db' batch_size (maxIdOf batch)
              (total + count) (batches + 1) fuel

/-- `backfill_flow` (`extraction.py:145-205`): loop from
`total_messages = 0`, `last_message_id = 0`. -/
def backfill_flow (platform : String) (src : List Message) (db : DBState)
    (batch_size : Nat) : DBState × Nat × Except String BackfillResult :=
  backfillLoop platform src db batch_size 0 0 0 (src.length + 1)

/-- Result dictionary of `incremental_flow` (`extraction.py:259-265`);
`last_message_id` is `new_last_id`, which is the previous checkpoint value
(an `Optional[int]`) when the extraction came back empty. -/
structure IncResult where
  status : String
  new_messages : Nat
  last_message_id : Option Nat
deriving Repr, DecidableEq

/-- `incremental_flow` (`extraction.py:212-265`): read the checkpoint, run a
single extraction after it (`after_id or 0` inside the extractor), load, and
report.  `get_last_message_id_task` and `load_messages_task` carry Prefect
retries, which do not change the outcome of these deterministic bodies. -/
def incremental_flow (platform : String) (src : List Message) (db : DBState)
    (source_id : String) (limit : Nat) : DBState × Except String IncResult :=
  let last_id := get_last_message_id db source_id platform
  match (extract_messages_task platform src (last_id.getD 0) limit).1 with
  | Except.error e => (db, Except.error e)
  | Except.ok batch =>
    match load_messages_task db batch with
    | (db', Except.error e) => (db', Except.error e)
    | (db', Except.ok count) =>
      (db', Except.ok
        { status := "completed", new_messages := count,
          last_message_id := if batch.isEmpty then last_id else some (maxIdOf batch) })

/-- Python truthiness of an `Optional[int]`: `None` and `0` are falsy.  Used
by `if last_id:` and `if max_iterations and ...`. -/
def pyTruthyNat : Option Nat → Bool
  | none => false
  | some v => !(v == 0)

/-- The mode decision of `convoetl_flow` (`orchestration.py:44-53`):
`mode = "incremental" if last_id else "backfill"`. -/
def auto_mode (db : DBState) (source_id platform : String) : String :=
  if pyTruthyNat (get_last_message_id db source_id platform) then "incremental"
  else "backfill"

/-- A driver result as aggregated by the orchestration flows: either a
backfill dictionary or an incremental dictionary. -/
inductive RunResult where
  | backfill (r : BackfillResult)
  | incremental (r : IncResult)
deriving Repr, DecidableEq

/-- `convoetl_flow` (`orchestration.py:19-77`), the target of
`Pipeline.run`: resolve `"auto"` by reading the checkpoint once, then invoke
`backfill_flow` (default `batch_size=1000`) or `incremental_flow` (default
`limit=5000`). -/
def convoetl_flow (platform : String) (src : List Message) (db : DBState)
    (source_id : String) (mode : String) : DBState × Except String RunResult :=
  let m := if mode == "auto" then auto_mode db source_id platform else mode
  if m == "backfill" then
    let r := backfill_flow platform src db 1000
    (r.1, r.2.2.map RunResult.backfill)
  else
    let r := incremental_flow platform src db source_id 5000
    (r.1, r.2.map RunResult.incremental)

/-- Statistics dictionary of `polling_flow` (`orchestration.py:157-163`).
The wall-clock `duration_seconds` and the float
`average_messages_per_poll` are not modelled. -/
structure PollStats where
  status : String
  iterations : Nat
  total_messages : Nat
deriving Repr, DecidableEq

/-- The `while True` loop of `polling_flow` (`orchestration.py:115-152`),
indexed by fuel (`none` models the unbounded case never reaching its break).
`upstream it` is the live source contents seen by iteration `it`; the
`try/except` around the incremental sync keeps the loop going on error, and
the store's rollback means an erroring sync hands back the unchanged state. -/
def pollingLoop (platform : String) (upstream : Nat → List Message)
    (source_id : String) (db : DBState) (max_iterations : Option Nat)
    (iteration total : Nat) : Nat → Option (DBState × PollStats)
  | 0 => none
  | fuel + 1 =>
    let it := iteration + 1
    let step := incremental_flow platform (upstream it) db source_id 5000
    let total' := match step.2 with
      | Except.ok r => total + r.new_messages
      | Except.error _ => total
    if pyTruthyNat max_iterations && decide (max_iterations.getD 0 ≤ it) then
      some (step.1, { status := "completed", iterations := it, total_messages := total' })
    else
      pollingLoop platform upstream source_id step.1 max_iterations it total' fuel

/-- `polling_flow` (`orchestration.py:84-163`), the target of
`Pipeline.poll`. -/
def polling_flow (platform : String) (upstream : Nat → List Message)
    (source_id : String) (db : DBState) (max_iterations : Option Nat)
    (fuel : Nat) : Option (DBState × PollStats) :=
  pollingLoop platform upstream source_id db max_iterations 0 0 fuel

/-- One entry of the `sources` list handed to `multi_source_flow`
(`orchestration.py:179-180`); `src` is the upstream content behind that
source's extractor configuration. -/
structure SourceCfg where
  platform : String
  source_id : String
  src : List Message
deriving Repr

/-- Aggregate dictionary of `multi_source_flow` (`orchestration.py:220-225`). -/
structure MultiResult where
  status : String
  sources_processed : Nat
  total_messages : Nat
  individual_results : List RunResult
deriving Repr

/-- `multi_source_flow` (`orchestration.py:170-225`), the target of
`Pipeline.run_multiple`.  This repository runs Prefect 2
(`ConcurrentTaskRunner`, `task_input_hash`; `scheduler.py:9` notes
`Prefect 2.14+`), and Prefect 2 `Flow` objects have no `.submit` method —
only tasks do.  So for every non-empty `sources` list the first iteration of
the loop at `orchestration.py:192-207` evaluates `backfill_flow.submit` or
`incremental_flow.submit` and raises
`AttributeError: 'Flow' object has no attribute 'submit'` (modelled without
the quote characters), in either mode, before any driver runs; the flow
fails with the store untouched and no per-source results.  Only the empty
list reaches the aggregation at `orchestration.py:216-225`: the loop body
never runs, `results` is empty, and the flow reports zero sources and zero
messages. -/
def multi_source_flow (db : DBState) (sources : List SourceCfg)
    (mode : String) : DBState × Except String MultiResult :=
  match sources with
  | [] =>
    (db, Except.ok
      { status := "completed", sources_processed := sources.length,
        total_messages := 0, individual_results := [] })
  | _ :: _ =>
    (db, Except.error "AttributeError: Flow object has no attribute submit")

/-- Fixture: a message of the source `"42"` on platform `"telegram"`. -/
def sampleMsg (i : Nat) : Message :=
  { message_id := i, platform := "telegram", chat_id := "42", user_id := 7,
    message_text := "hi" }

/-- Fixture: a static source holding exactly `k` messages with ids `1..k`. -/
def sampleSrc (k : Nat) : List Message :=
  (List.range k).map (fun i => sampleMsg (i + 1))

/-- Fixture: source `"a"` on telegram, one upstream message — succeeds. -/
def sampleCfgA : SourceCfg := ⟨"telegram", "a", [⟨1, "telegram", "a", 1, "x"⟩]⟩

/-- Fixture: source `"b"` on an unsupported platform — its extractor task
always fails fatally. -/
def sampleCfgBad : SourceCfg := ⟨"youtube", "b", []⟩

/-- Fixture: source `"c"` on telegram, nothing upstream — succeeds. -/
def sampleCfgC : SourceCfg := ⟨"telegram", "c", []⟩

/-- Modelled from the spec: the Checkpoint Accessor's explicit checkpoint
table (spec section 4.1).  The code under `src` keeps no checkpoint table —
it derives the checkpoint as `MAX(message_id)` over stored rows — so
`advance_checkpoint` and its `RegressionError` guard exist only in the spec
and are modelled from its words here. -/
structure CheckpointTable where
  entries : List ((String × String) × Nat)
deriving Repr, DecidableEq

/-- Modelled from the spec: `get_checkpoint(source_id, platform)`
(spec section 4.1), a side-effect-free read. -/
def get_checkpoint (t : CheckpointTable) (source_id platform : String) :
    Option Nat :=
  (t.entries.find? (fun e => e.1 == (source_id, platform))).map (·.2)

/-- Modelled from the spec: `advance_checkpoint(source_id, platform,
new_last_id)` fails with `RegressionError` — leaving the table untouched —
whenever `new_last_id` is below the current value (spec section 4.1). -/
def advance_checkpoint (t : CheckpointTable) (source_id platform : String)
    (new_last_id : Nat) : CheckpointTable × Except String Unit :=
  match get_checkpoint t source_id platform with
  | some cur =>
    if new_last_id < cur then (t, Except.error "RegressionError")
    else
      (⟨t.entries.map (fun e =>
        if e.1 == (source_id, platform) then (e.1, new_last_id) else e)⟩,
       Except.ok ())
  | none => (⟨t.entries ++ [((source_id, platform), new_last_id)]⟩, Except.ok ())

/-! ### Basic facts about the frame maximum -/

theorem maxIdOf_foldl (l : List Message) :
    ∀ acc, l.foldl (fun a m => max a m.message_id) acc = max acc (maxIdOf l) := by
  induction l with
  | nil => intro acc; simp [maxIdOf]
  | cons m t ih =>
    intro acc
    show t.foldl _ (max acc m.message_id) = max acc (maxIdOf (m :: t))
    have h2 : maxIdOf (m :: t) = max m.message_id (maxIdOf t) := by
      show t.foldl _ (max 0 m.message_id) = _
      rw [ih (max 0 m.message_id), Nat.zero_max]
    rw [ih (max acc m.message_id), h2, Nat.max_assoc]

theorem maxIdOf_cons (m : Message) (t : List Message) :
    maxIdOf (m :: t) = max m.message_id (maxIdOf t) := by
  show t.foldl _ (max 0 m.message_id) = _
  rw [maxIdOf_foldl, Nat.zero_max]

theorem maxIdOf_append (l₁ l₂ : List Message) :
    maxIdOf (l₁ ++ l₂) = max (maxIdOf l₁) (maxIdOf l₂) := by
  induction l₁ with
  | nil => simp [maxIdOf]
  | cons m t ih => rw [List.cons_append, maxIdOf_cons, maxIdOf_cons, ih, Nat.max_assoc]

theorem mem_le_maxIdOf (l : List Message) (m : Message) (h : m ∈ l) :
    m.message_id ≤ maxIdOf l := by
  induction l with
  | nil => cases h
  | cons a t ih =>
    rw [maxIdOf_cons]
    rcases List.mem_cons.mp h with rfl | hmem
    · exact Nat.le_max_left _ _
    · exact Nat.le_trans (ih hmem) (Nat.le_max_right _ _)

theorem maxIdOf_le (l : List Message) (c : Nat) (h : ∀ m ∈ l, m.message_id ≤ c) :
    maxIdOf l ≤ c := by
  induction l with
  | nil => simp [maxIdOf]
  | cons a t ih =>
    rw [maxIdOf_cons]
    exact Nat.max_le.mpr
      ⟨h a (List.mem_cons_self a t), ih (fun m hm => h m (List.mem_cons_of_mem a hm))⟩

theorem maxIdOf_attained (l : List Message) (h : l ≠ []) :
    ∃ m ∈ l, maxIdOf l = m.message_id := by
  induction l with
  | nil => cases h rfl
  | cons a t ih =>
    rw [maxIdOf_cons]
    rcases t with _ | ⟨b, t'⟩
    · exact ⟨a, List.mem_cons_self a [], by simp [maxIdOf]⟩
    · obtain ⟨m, hm, hmax⟩ := ih (by simp)
      rcases Nat.le_total (maxIdOf (b :: t')) a.message_id with hle | hle
      · exact ⟨a, List.mem_cons_self _ _, Nat.max_eq_left hle⟩
      · exact ⟨m, List.mem_cons_of_mem a hm, by rw [Nat.max_eq_right hle, hmax]⟩

/-! ### The derived checkpoint -/

theorem checkpointValue_eq (db : DBState) (s p : String) :
    checkpointValue db s p = maxIdOf (rowsFor db s p) := by
  unfold checkpointValue get_last_message_id sqlMaxMessageId
  by_cases h : (rowsFor db s p).isEmpty
  · rw [List.isEmpty_iff] at h
    simp [h, maxIdOf]
  · simp only [h, if_false]
    by_cases h0 : maxIdOf (rowsFor db s p) = 0 <;> simp [h0]

theorem get_last_some_ne_zero (db : DBState) (s p : String) (c : Nat)
    (h : get_last_message_id db s p = some c) : c ≠ 0 := by
  unfold get_last_message_id at h
  rcases hm : sqlMaxMessageId db s p with _ | v <;> rw [hm] at h
  · cases h
  · by_cases hv : v = 0
    · simp [hv] at h
    · simp [hv] at h; omega

theorem rowsFor_append (db : DBState) (batch : List Message) (s p : String) :
    rowsFor ⟨db.messages ++ batch⟩ s p
      = rowsFor db s p ++ batch.filter (fun m => m.chat_id == s && m.platform == p) := by
  unfold rowsFor
  exact List.filter_append ..

/-! ### The extraction task under Prefect retries -/

theorem extract_task_telegram (src : List Message) (a l : Nat) :
    extract_messages_task "telegram" src a l
      = (Except.ok (staticExtract src a l), 1) := rfl

theorem retryAttempts_error {α : Type} (e : String) (f : Nat → Except String α)
    (h : ∀ i, f i = Except.error e) :
    ∀ r a, retryAttempts f a r = (Except.error e, a + r + 1) := by
  intro r
  induction r with
  | zero => intro a; simp [retryAttempts, h a]
  | succ n ih =>
    intro a
    show (match f a with
          | Except.ok v => (Except.ok v, a + 1)
          | Except.error _ => retryAttempts f (a + 1) n) = _
    rw [h a, ih (a + 1)]
    simp; omega

theorem extract_task_unsupported (platform : String) (src : List Message)
    (a l : Nat) (h : platform ≠ "telegram") :
    extract_messages_task platform src a l
      = (Except.error ("Unsupported platform: " ++ platform), 4) := by
  have hb : (platform == "telegram") = false := beq_eq_false_iff_ne.mpr h
  have hbody : ∀ i : Nat,
      (fun _ : Nat => extract_messages_body platform src a l) i
        = Except.error ("Unsupported platform: " ++ platform) := by
    intro i; simp [extract_messages_body, hb]
  show runTaskWithRetries extractRetries _ = _
  unfold runTaskWithRetries
  rw [retryAttempts_error _ _ hbody]
  rfl

/-! ### Claim C4: auto mode selection -/

/-- C4: `run(mode="auto")` evaluates the mode by one read of the checkpoint
(`loader.get_last_message_id`) and selects backfill exactly when no
checkpoint exists for `(source_id, platform)`, incremental exactly when one
exists, then invokes the corresponding driver: the `"auto"` run coincides
with the explicit-mode run, which dispatches to `backfill_flow`
(batch size 1000) resp. `incremental_flow` (limit 5000). -/
theorem auto_mode_selection (platform : String) (src : List Message)
    (db : DBState) (s : String) :
    (get_last_message_id db s platform = none →
      auto_mode db s platform = "backfill" ∧
      convoetl_flow platform src db s "auto" = convoetl_flow platform src db s "backfill")
    ∧ (∀ c, get_last_message_id db s platform = some c →
      auto_mode db s platform = "incremental" ∧
      convoetl_flow platform src db s "auto" = convoetl_flow platform src db s "incremental")
    ∧ convoetl_flow platform src db s "backfill"
        = ((backfill_flow platform src db 1000).1,
           (backfill_flow platform src db 1000).2.2.map RunResult.backfill)
    ∧ convoetl_flow platform src db s "incremental"
        = ((incremental_flow platform src db s 5000).1,
           (incremental_flow platform src db s 5000).2.map RunResult.incremental) := by
  have e1 : (("auto" : String) == "auto") = true := rfl
  have e2 : (("backfill" : String) == "auto") = false := rfl
  have e3 : (("backfill" : String) == "backfill") = true := rfl
  have e4 : (("incremental" : String) == "auto") = false := rfl
  have e5 : (("incremental" : String) == "backfill") = false := rfl
  refine ⟨?_, ?_, ?_, ?_⟩
  · intro h
    have hb : auto_mode db s platform = "backfill" := by
      simp [auto_mode, h, pyTruthyNat]
    exact ⟨hb, by simp [convoetl_flow, e1, e2, hb, e3]⟩
  · intro c hc
    have hnz : c ≠ 0 := get_last_some_ne_zero db s platform c hc
    have hi : auto_mode db s platform = "incremental" := by
      simp [auto_mode, hc, pyTruthyNat, hnz]
    exact ⟨hi, by simp [convoetl_flow, e1, e4, hi, e5]⟩
  · simp [convoetl_flow, e2, e3]
  · simp [convoetl_flow, e4, e5]

/-- Witness for C4 at concrete inputs: the empty store has no checkpoint and
selects backfill; a store holding message 15 of source `"42"` has checkpoint
15 and selects incremental. -/
theorem auto_mode_selection_witness :
    auto_mode ⟨[]⟩ "42" "telegram" = "backfill"
    ∧ auto_mode ⟨[sampleMsg 15]⟩ "42" "telegram" = "incremental" :=
  ⟨((auto_mode_selection "telegram" [] ⟨[]⟩ "42").1 rfl).1,
   (((auto_mode_selection "telegram" [] ⟨[sampleMsg 15]⟩ "42").2.1) 15 rfl).1⟩

/-! ### Claim C5: the checkpoint never outpaces durable storage -/

/-- C5: in every store state — in particular every state reachable through
batch steps, failing or not — the set of stored message ids for
`(source_id, platform)` strictly above the observed checkpoint value is
empty, and a failing `store_messages` rolls its transaction back, leaving
both the stored messages and the (derived) checkpoint unchanged.  The
checkpoint is `MAX(message_id)` over the committed rows, so its advance is
the very commit that makes the batch durable: it cannot run ahead of
storage. -/
theorem checkpoint_never_outpaces_storage (db : DBState) (s p : String)
    (batch : List Message) (e : String) :
    db.messages.filter
        (fun m => m.chat_id == s && m.platform == p
          && decide (checkpointValue db s p < m.message_id)) = []
    ∧ ((store_messages db batch).2 = Except.error e →
        (store_messages db batch).1 = db
        ∧ checkpointValue ((store_messages db batch).1) s p = checkpointValue db s p) := by
  constructor
  · rw [List.filter_eq_nil_iff]
    intro m hm
    by_cases hc : (m.chat_id == s && m.platform == p) = true
    · have hrow : m ∈ rowsFor db s p := List.mem_filter.mpr ⟨hm, hc⟩
      have hle : m.message_id ≤ checkpointValue db s p := by
        rw [checkpointValue_eq]; exact mem_le_maxIdOf _ _ hrow
      simp [hc, Nat.not_lt.mpr hle]
    · simp only [Bool.and_eq_true] at hc ⊢
      tauto
  · intro herr
    have hdb : (store_messages db batch).1 = db := by
      unfold store_messages at herr ⊢
      by_cases h1 : batch.isEmpty
      · simp [h1] at herr
      · by_cases h2 : (batchHasConflict db.messages batch || batchHasInternalDup batch) = true
        · simp [h1, h2]
        · simp [h1, h2] at herr
    exact ⟨hdb, by rw [hdb]⟩

/-- Witness for C5 at concrete inputs: store `{message 3}` of source `"42"`,
whose checkpoint is 3, has no stored id above its checkpoint; re-storing
message 3 fails with `IntegrityError` and leaves the state unchanged. -/
theorem checkpoint_never_outpaces_storage_witness :
    (DBState.mk [sampleMsg 3]).messages.filter
        (fun m => m.chat_id == "42" && m.platform == "telegram"
          && decide (checkpointValue ⟨[sampleMsg 3]⟩ "42" "telegram" < m.message_id)) = []
    ∧ (store_messages ⟨[sampleMsg 3]⟩ [sampleMsg 3]).1 = ⟨[sampleMsg 3]⟩ :=
  ⟨(checkpoint_never_outpaces_storage ⟨[sampleMsg 3]⟩ "42" "telegram"
      [sampleMsg 3] "IntegrityError").1,
   ((checkpoint_never_outpaces_storage ⟨[sampleMsg 3]⟩ "42" "telegram"
      [sampleMsg 3] "IntegrityError").2 rfl).1⟩

/-! ### Claim C6: monotonic checkpoint and the regression guard -/

/-- C6: across any batch step the observed checkpoint value for a source is
non-decreasing — `store_messages` only ever appends rows, so the derived
`MAX(message_id)` cannot shrink, whatever the batch and whether the store
succeeds or rolls back.  The second conjunct is the spec-modelled
`advance_checkpoint` guard (the code under `src` keeps no explicit
checkpoint table, deriving the checkpoint from storage instead): advancing
backward fails with `RegressionError` and leaves the table unchanged. -/
theorem checkpoint_monotonic_and_regression_guard (db : DBState)
    (batch : List Message) (s p : String) (t : CheckpointTable) (c v : Nat) :
    checkpointValue db s p ≤ checkpointValue ((store_messages db batch).1) s p
    ∧ (get_checkpoint t s p = some c → v < c →
        advance_checkpoint t s p v = (t, Except.error "RegressionError")) := by
  constructor
  · unfold store_messages
    by_cases h1 : batch.isEmpty
    · simp [h1]
    · by_cases h2 : (batchHasConflict db.messages batch || batchHasInternalDup batch) = true
      · simp [h1, h2]
      · simp only [h1, h2, if_false, Bool.false_eq_true]
        rw [checkpointValue_eq, checkpointValue_eq]
        show maxIdOf (rowsFor db s p) ≤ maxIdOf (rowsFor ⟨db.messages ++ batch⟩ s p)
        rw [rowsFor_append, maxIdOf_append]
        omega
  · intro hc hv
    unfold advance_checkpoint
    rw [hc]
    simp [hv]

/-- Witness for C6 at concrete inputs: appending message 4 moves the
checkpoint of `{message 3}` forward, and `advance_checkpoint` from 5 back to
3 is rejected with `RegressionError`. -/
theorem checkpoint_monotonic_and_regression_guard_witness :
    checkpointValue ⟨[sampleMsg 3]⟩ "42" "telegram"
      ≤ checkpointValue ((store_messages ⟨[sampleMsg 3]⟩ [sampleMsg 4]).1) "42" "telegram"
    ∧ advance_checkpoint ⟨[(("42", "telegram"), 5)]⟩ "42" "telegram" 3
        = (⟨[(("42", "telegram"), 5)]⟩, Except.error "RegressionError") :=
  ⟨(checkpoint_monotonic_and_regression_guard ⟨[sampleMsg 3]⟩ [sampleMsg 4]
      "42" "telegram" ⟨[(("42", "telegram"), 5)]⟩ 5 3).1,
   (checkpoint_monotonic_and_regression_guard ⟨[sampleMsg 3]⟩ [sampleMsg 4]
      "42" "telegram" ⟨[(("42", "telegram"), 5)]⟩ 5 3).2 rfl (by decide)⟩

/-! ### Claim C7: fatal errors are retried, not surfaced immediately -/

/-- C7 counterexample: an unsupported platform is the spec's Fatal/input
error, yet `extract_messages_task` (`@task(retries=3)`) runs 4 attempts —
Prefect retries every exception, no error class is exempt — so the failure
is not surfaced immediately without retry attempts, as the claim states. -/
theorem fatal_error_retried_counterexample :
    extract_messages_task "youtube" [] 0 100
      = (Except.error "Unsupported platform: youtube", 4)
    ∧ (extract_messages_task "youtube" [] 0 100).2 ≠ 1 :=
  ⟨rfl, by decide⟩

/-- C7 amended: every extraction failure, fatal or transient alike, is
retried up to `extractRetries = 3` times (4 attempts in all, with
`extractRetryDelaySeconds = 60` between attempts) and the final failure is
propagated to the caller — never silently swallowed — while a succeeding
extraction returns on the first attempt. -/
theorem retry_policy_all_failures_retried (platform : String)
    (src : List Message) (a l : Nat) :
    (platform = "telegram" →
      extract_messages_task platform src a l = (Except.ok (staticExtract src a l), 1))
    ∧ (platform ≠ "telegram" →
      extract_messages_task platform src a l
        = (Except.error ("Unsupported platform: " ++ platform), extractRetries + 1)) := by
  constructor
  · intro h; subst h; rfl
  · intro h; exact extract_task_unsupported platform src a l h

/-- Witness for C7's amended statement at concrete inputs. -/
theorem retry_policy_all_failures_retried_witness :
    extract_messages_task "telegram" [] 0 1 = (Except.ok [], 1)
    ∧ extract_messages_task "youtube" [] 0 1
        = (Except.error "Unsupported platform: youtube", extractRetries + 1) :=
  ⟨(retry_policy_all_failures_retried "telegram" [] 0 1).1 rfl,
   (retry_policy_all_failures_retried "youtube" [] 0 1).2 (by decide)⟩

/-! ### Claim C9: incremental sync with no new upstream messages -/

/-- C9: if the checkpoint of a source reads `c` and the extractor has no
message beyond `c`, a single incremental sync returns `new_messages = 0`
with `last_message_id = c` and leaves the store — hence also the stored
messages and the derived checkpoint — exactly unchanged. -/
theorem incremental_sync_no_new_messages (src : List Message) (db : DBState)
    (s : String) (limit c : Nat)
    (hc : get_last_message_id db s "telegram" = some c)
    (hempty : staticExtract src c limit = []) :
    incremental_flow "telegram" src db s limit
      = (db, Except.ok
          { status := "completed", new_messages := 0, last_message_id := some c }) := by
  simp [incremental_flow, hc, extract_task_telegram, hempty, load_messages_task]

/-- Witness for C9 at concrete inputs: source `"42"` stored up to message 3,
upstream still ends at message 3, `sync` with limit 100. -/
theorem incremental_sync_no_new_messages_witness :
    incremental_flow "telegram" [sampleMsg 3] ⟨[sampleMsg 3]⟩ "42" 100
      = (⟨[sampleMsg 3]⟩, Except.ok
          { status := "completed", new_messages := 0, last_message_id := some 3 }) :=
  incremental_sync_no_new_messages [sampleMsg 3] ⟨[sampleMsg 3]⟩ "42" 100 3 rfl rfl

/-! ### Claim C8: the polling loop -/

theorem pollingLoop_succ (platform : String) (upstream : Nat → List Message)
    (source_id : String) (db : DBState) (max_iterations : Option Nat)
    (iteration total f : Nat) :
    pollingLoop platform upstream source_id db max_iterations iteration total (f + 1)
      = (if pyTruthyNat max_iterations && decide (max_iterations.getD 0 ≤ iteration + 1) then
           some ((incremental_flow platform (upstream (iteration + 1)) db source_id 5000).1,
             { status := "completed", iterations := iteration + 1,
               total_messages :=
                 match (incremental_flow platform (upstream (iteration + 1)) db source_id 5000).2 with
                 | Except.ok r => total + r.new_messages
                 | Except.error _ => total })
         else
           pollingLoop platform upstream source_id
             (incremental_flow platform (upstream (iteration + 1)) db source_id 5000).1
             max_iterations (iteration + 1)
             (match (incremental_flow platform (upstream (iteration + 1)) db source_id 5000).2 with
              | Except.ok r => total + r.new_messages
              | Except.error _ => total) f) := rfl

theorem pollingLoop_spec (platform : String) (upstream : Nat → List Message)
    (source_id : String) (n : Nat) (hn : 1 ≤ n) :
    ∀ fuel i total db, i < n → n - i ≤ fuel →
      ∃ dbf tf, pollingLoop platform upstream source_id db (some n) i total fuel
        = some (dbf, { status := "completed", iterations := n, total_messages := tf }) := by
  intro fuel
  induction fuel with
  | zero => intro i total db hi hf; omega
  | succ f ih =>
    intro i total db hi hf
    rw [pollingLoop_succ]
    have htr : pyTruthyNat (some n) = true := by
      have : (n == 0) = false := beq_eq_false_iff_ne.mpr (by omega)
      simp [pyTruthyNat, this]
    by_cases hbr : n ≤ i + 1
    · have hit : i + 1 = n := by omega
      have hcond : (pyTruthyNat (some n)
          && decide ((some n).getD 0 ≤ i + 1)) = true := by
        rw [htr]
        simpa using hbr
      rw [hcond, if_pos rfl, hit]
      exact ⟨_, _, rfl⟩
    · have hd : (decide ((some n).getD 0 ≤ i + 1)) = false := decide_eq_false hbr
      have hcond : (pyTruthyNat (some n)
          && decide ((some n).getD 0 ≤ i + 1)) = false := by
        rw [htr, hd]; rfl
      rw [hcond, if_neg (by simp)]
      exact ih (i + 1) _ _ (by omega) (by omega)

/-- C8: for every `max_iterations = n ≥ 1` — and every behaviour of the
upstream source across iterations, including behaviours under which any
subset of the incremental syncs raises an error (the `try/except` logs and
continues, and the store's rollback hands the unchanged state to the next
iteration) — the polling loop runs exactly `n` incremental-sync iterations
and terminates with statistics reporting `iterations = n`; no iteration
error terminates the loop. -/
theorem polling_runs_exactly_max_iterations (platform : String)
    (upstream : Nat → List Message) (source_id : String) (db : DBState)
    (n fuel : Nat) (hn : 1 ≤ n) (hfuel : n ≤ fuel) :
    ∃ dbf tf, polling_flow platform upstream source_id db (some n) fuel
      = some (dbf, { status := "completed", iterations := n, total_messages := tf }) := by
  unfold polling_flow
  exact pollingLoop_spec platform upstream source_id n hn fuel 0 0 db (by omega) (by omega)

/-- Witness for C8 at concrete inputs: source `"42"` polled twice against an
upstream whose only message collides, on the primary key, with a row already
stored for a different chat — both incremental syncs fail with
`IntegrityError`, yet the loop still runs exactly its 2 iterations. -/
theorem polling_runs_exactly_max_iterations_witness :
    ∃ dbf tf, polling_flow "telegram"
        (fun _ => [{ message_id := 5, platform := "telegram", chat_id := "other",
                     user_id := 7, message_text := "hi" }])
        "42"
        ⟨[{ message_id := 5, platform := "telegram", chat_id := "other",
            user_id := 7, message_text := "hi" }]⟩
        (some 2) 2
      = some (dbf, { status := "completed", iterations := 2, total_messages := tf }) :=
  polling_runs_exactly_max_iterations "telegram"
    (fun _ => [{ message_id := 5, platform := "telegram", chat_id := "other",
                 user_id := 7, message_text := "hi" }])
    "42"
    ⟨[{ message_id := 5, platform := "telegram", chat_id := "other",
        user_id := 7, message_text := "hi" }]⟩
    2 2 (by decide) (by decide)

/-! ### Claim C10: a highest stored id of 0 reads as no checkpoint -/

/-- C10: `get_last_message_id` returns `None` both when `MAX(message_id)` is
`NULL` (no rows) and when it is the integer 0 (Python truthiness of
`result[0]`); consequently a source whose highest stored id is 0 is treated
as having no checkpoint — auto mode selects backfill for it, and the
`after_id` an incremental sync hands the extractor,
`get_last_message_id(...) or 0`, is 0. -/
theorem zero_max_id_treated_as_absent (db : DBState) (s p : String) :
    (sqlMaxMessageId db s p = none → get_last_message_id db s p = none)
    ∧ (sqlMaxMessageId db s p = some 0 →
        get_last_message_id db s p = none
        ∧ auto_mode db s p = "backfill"
        ∧ (get_last_message_id db s p).getD 0 = 0) := by
  constructor
  · intro h; unfold get_last_message_id; rw [h]
  · intro h
    have hnone : get_last_message_id db s p = none := by
      unfold get_last_message_id; rw [h]; simp
    exact ⟨hnone, by simp [auto_mode, hnone, pyTruthyNat], by rw [hnone]; rfl⟩

/-- Witness for C10 at concrete inputs: a store holding only a message with
id 0 for source `"42"` (so `MAX(message_id) = 0`) reads as having no
checkpoint and auto mode selects backfill; the empty store behaves the
same through the `NULL` branch. -/
theorem zero_max_id_treated_as_absent_witness :
    get_last_message_id ⟨[sampleMsg 0]⟩ "42" "telegram" = none
    ∧ auto_mode ⟨[sampleMsg 0]⟩ "42" "telegram" = "backfill"
    ∧ get_last_message_id ⟨[]⟩ "42" "telegram" = none :=
  ⟨((zero_max_id_treated_as_absent ⟨[sampleMsg 0]⟩ "42" "telegram").2 rfl).1,
   ((zero_max_id_treated_as_absent ⟨[sampleMsg 0]⟩ "42" "telegram").2 rfl).2.1,
   (zero_max_id_treated_as_absent ⟨[]⟩ "42" "telegram").1 rfl⟩

/-! ### Unfolding the backfill loop, and fatally failing drivers -/

theorem backfillLoop_succ (platform : String) (src : List Message) (db : DBState)
    (B last total batches f : Nat) :
    backfillLoop platform src db B last total batches (f + 1)
      = (match (extract_messages_task platform src last B).1 with
         | Except.error e => (db, batches + 1, Except.error e)
         | Except.ok batch =>
           if batch.isEmpty then
             (db, batches + 1,
               Except.ok { status := "completed", total_messages := total,
                           last_message_id := last })
           else
             match load_messages_task db batch with
             | (db', Except.error e) => (db', batches + 1, Except.error e)
             | (db', Except.ok count) =>
               if batch.length < B then
                 (db', batches + 1,
                   Except.ok { status := "completed", total_messages := total + count,
                               last_message_id := maxIdOf batch })
               else
                 backfillLoop platform src db' B (maxIdOf batch)
                   (total + count) (batches + 1) f) := rfl

theorem backfill_flow_unsupported (platform : String) (src : List Message)
    (db : DBState) (B : Nat) (h : platform ≠ "telegram") :
    (backfill_flow platform src db B).2.2
      = Except.error ("Unsupported platform: " ++ platform) := by
  show (backfillLoop platform src db B 0 0 0 (src.length + 1)).2.2 = _
  rw [backfillLoop_succ, extract_task_unsupported platform src 0 B h]

theorem incremental_flow_unsupported (platform : String) (src : List Message)
    (db : DBState) (s : String) (l : Nat) (h : platform ≠ "telegram") :
    (incremental_flow platform src db s l).2
      = Except.error ("Unsupported platform: " ++ platform) := by
  simp only [incremental_flow]
  rw [extract_task_unsupported platform src _ l h]

/-! ### Claim C3: the multi-source coordinator cannot run at all -/

/-- C3: the claimed fan-out isolation is unreachable in the code.  This
Prefect 2 repository calls `.submit` on `Flow` objects
(`orchestration.py:194` and `:201`), but only tasks have `.submit`, so for
the claim's own scenario — three sources with the second one failing
fatally — the coordinator raises `AttributeError` on the very first source,
before any driver runs, in incremental and backfill mode alike: nothing is
stored, no per-source entry is produced, and the healthy sources are not
reported as successes.  The flow's docstring promises combined results from
all sources, so the claim matches the documented intent and the code is the
slip. -/
theorem multi_source_submit_attribute_error :
    (multi_source_flow ⟨[]⟩ [sampleCfgA, sampleCfgBad, sampleCfgC] "incremental").2
      = Except.error "AttributeError: Flow object has no attribute submit"
    ∧ (multi_source_flow ⟨[]⟩ [sampleCfgA, sampleCfgBad, sampleCfgC] "incremental").1
      = ⟨[]⟩
    ∧ (multi_source_flow ⟨[]⟩ [sampleCfgA] "backfill").2
      = Except.error "AttributeError: Flow object has no attribute submit"
    ∧ (multi_source_flow ⟨[]⟩ [] "incremental").2
      = Except.ok { status := "completed", sources_processed := 0,
                    total_messages := 0, individual_results := [] } :=
  ⟨rfl, rfl, rfl, rfl⟩

/-! ### Arithmetic of the batch count -/

theorem batches_formula (n B : Nat) (hB : 1 ≤ B) :
    (n + B - 1) / B + (if n % B = 0 then 1 else 0) = n / B + 1 := by
  obtain ⟨q, r, hrB, hn⟩ : ∃ q r, r < B ∧ n = B * q + r :=
    ⟨n / B, n % B, Nat.mod_lt _ (by omega), (Nat.div_add_mod n B).symm⟩
  subst hn
  have e4 : (B * q + r) / B = r / B + q := by
    rw [Nat.add_comm]; exact Nat.add_mul_div_left _ _ (by omega)
  have e5 : r / B = 0 := Nat.div_eq_of_lt hrB
  have e6 : (B * q + r) % B = r := by
    rw [Nat.add_comm, Nat.add_mul_mod_self_left]; exact Nat.mod_eq_of_lt hrB
  by_cases h0 : r = 0
  · subst h0
    have e1 : B * q + 0 + B - 1 = (B - 1) + B * q := by omega
    have e2 : ((B - 1) + B * q) / B = (B - 1) / B + q :=
      Nat.add_mul_div_left _ _ (by omega)
    have e3 : (B - 1) / B = 0 := Nat.div_eq_of_lt (by omega)
    rw [e1, e2, e3, e4, e5, e6]
    simp
  · have e1 : B * q + r + B - 1 = (r - 1) + B * (q + 1) := by
      have hmul : B * (q + 1) = B * q + B := Nat.mul_succ B q
      omega
    have e2 : ((r - 1) + B * (q + 1)) / B = (r - 1) / B + (q + 1) :=
      Nat.add_mul_div_left _ _ (by omega)
    have e3 : (r - 1) / B = 0 := Nat.div_eq_of_lt (by omega)
    rw [e1, e2, e3, e4, e5, e6]
    simp [h0]

/-! ### Splitting a sorted source at a full batch -/

theorem afterFilter_afterFilter (l : List Message) (a a' : Nat) (h : a ≤ a') :
    (afterFilter l a).filter (fun m => decide (a' < m.message_id))
      = afterFilter l a' := by
  unfold afterFilter
  induction l with
  | nil => rfl
  | cons m t ih =>
    by_cases h2 : a < m.message_id
    · by_cases h1 : a' < m.message_id
      · simp [List.filter_cons, h1, h2, ih]
      · simp [List.filter_cons, h1, h2, ih]
    · have h1 : ¬ a' < m.message_id := fun hlt => h2 (lt_of_le_of_lt h hlt)
      simp [List.filter_cons, h1, h2, ih]

theorem filter_split (l : List Message) (n : Nat) (q : Message → Bool)
    (h1 : ∀ m ∈ l.take n, q m = false) (h2 : ∀ m ∈ l.drop n, q m = true) :
    l.filter q = l.drop n := by
  have e1 : (l.take n).filter q = [] :=
    List.filter_eq_nil_iff.mpr (fun a ha => by simp [h1 a ha])
  have e2 : (l.drop n).filter q = l.drop n :=
    List.filter_eq_self.mpr (fun a ha => h2 a ha)
  conv_lhs => rw [← List.take_append_drop n l]
  rw [List.filter_append, e1, e2, List.nil_append]

theorem sorted_take_lt_drop (P : List Message) (B : Nat) (hsort : P.Pairwise idLt)
    (hne : P.take B ≠ []) :
    ∀ m ∈ P.drop B, maxIdOf (P.take B) < m.message_id := by
  intro m hm
  obtain ⟨m₀, hm₀, hmax⟩ := maxIdOf_attained (P.take B) hne
  have hpw : (P.take B ++ P.drop B).Pairwise idLt := by
    rw [List.take_append_drop]; exact hsort
  have hcross := (List.pairwise_append.mp hpw).2.2 m₀ hm₀ m hm
  rw [hmax]
  exact hcross

theorem afterFilter_advance (src : List Message) (after B : Nat)
    (hsortP : (afterFilter src after).Pairwise idLt)
    (hne : (afterFilter src after).take B ≠ []) :
    afterFilter src (maxIdOf ((afterFilter src after).take B))
      = (afterFilter src after).drop B := by
  have hle : after ≤ maxIdOf ((afterFilter src after).take B) := by
    obtain ⟨m₀, hm₀, hmax⟩ := maxIdOf_attained _ hne
    have hmem : m₀ ∈ afterFilter src after := List.take_subset _ _ hm₀
    have hgt : after < m₀.message_id := by
      unfold afterFilter at hmem
      have := (List.mem_filter.mp hmem).2
      simpa using this
    omega
  rw [← afterFilter_afterFilter src after _ hle]
  exact filter_split _ B _
    (fun m hm => decide_eq_false (by have := mem_le_maxIdOf _ m hm; omega))
    (fun m hm => decide_eq_true (sorted_take_lt_drop _ B hsortP hne m hm))

/-! ### A conflict-free sorted batch stores cleanly -/

theorem pkEq_false_of_id_ne (a b : Message) (h : a.message_id ≠ b.message_id) :
    pkEq a b = false := by
  unfold pkEq
  have hb : (a.message_id == b.message_id) = false := beq_eq_false_iff_ne.mpr h
  simp [hb]

theorem internalDup_false_of_sorted :
    ∀ l : List Message, l.Pairwise idLt → batchHasInternalDup l = false := by
  intro l
  induction l with
  | nil => intro _; rfl
  | cons m t ih =>
    intro h
    rw [List.pairwise_cons] at h
    obtain ⟨h1, h2⟩ := h
    have ha : t.any (fun m' => pkEq m m') = false := by
      rw [List.any_eq_false]
      intro m' hm'
      simp [pkEq_false_of_id_ne m m' (Nat.ne_of_lt (h1 m' hm'))]
    show (t.any (fun m' => pkEq m m') || batchHasInternalDup t) = false
    rw [ha, ih h2]
    rfl

theorem batchHasConflict_false (stored batch : List Message)
    (h : ∀ m ∈ batch, ∀ m' ∈ stored, pkEq m m' = false) :
    batchHasConflict stored batch = false := by
  unfold batchHasConflict
  simp only [List.any_eq_false]
  intro m hm hcontra
  rw [List.any_eq_true] at hcontra
  obtain ⟨m', hm', hpk⟩ := hcontra
  rw [h m hm m' hm'] at hpk
  cases hpk

theorem store_messages_ok (db : DBState) (batch : List Message) (hne : batch ≠ [])
    (hconf : batchHasConflict db.messages batch = false)
    (hdup : batchHasInternalDup batch = false) :
    store_messages db batch = (⟨db.messages ++ batch⟩, Except.ok batch.length) := by
  have hie : batch.isEmpty = false := by
    cases batch with
    | nil => cases hne rfl
    | cons a t => rfl
  simp [store_messages, hie, hconf, hdup]

theorem load_messages_nonempty (db : DBState) (batch : List Message)
    (hne : batch ≠ []) : load_messages_task db batch = store_messages db batch := by
  have hie : batch.isEmpty = false := by
    cases batch with
    | nil => cases hne rfl
    | cons a t => rfl
  simp [load_messages_task, hie]

theorem backfillLoop_succ_telegram (src : List Message) (db : DBState)
    (B after total batches f : Nat) :
    backfillLoop "telegram" src db B after total batches (f + 1)
      = (if (staticExtract src after B).isEmpty then
           (db, batches + 1,
             Except.ok { status := "completed", total_messages := total,
                         last_message_id := after })
         else
           match load_messages_task db (staticExtract src after B) with
           | (db', Except.error e) => (db', batches + 1, Except.error e)
           | (db', Except.ok count) =>
             if (staticExtract src after B).length < B then
               (db', batches + 1,
                 Except.ok { status := "completed", total_messages := total + count,
                             last_message_id := maxIdOf (staticExtract src after B) })
             else
               backfillLoop "telegram" src db' B (maxIdOf (staticExtract src after B))
                 (total + count) (batches + 1) f) := rfl

/-! ### The backfill loop on a sorted static source -/

theorem backfillLoop_run (src : List Message) (B : Nat) (hB : 1 ≤ B)
    (hsort : src.Pairwise idLt) :
    ∀ fuel after db total batches,
      (afterFilter src after).length + 1 ≤ fuel →
      (∀ m ∈ afterFilter src after, ∀ m' ∈ db.messages, pkEq m m' = false) →
      (backfillLoop "telegram" src db B after total batches fuel).2.1
          = batches + ((afterFilter src after).length / B + 1)
      ∧ (backfillLoop "telegram" src db B after total batches fuel).2.2
          = Except.ok { status := "completed",
                        total_messages := total + (afterFilter src after).length,
                        last_message_id :=
                          if afterFilter src after = [] then after
                          else maxIdOf (afterFilter src after) } := by
  intro fuel
  induction fuel with
  | zero => intro after db total batches hf hdisj; exact absurd hf (by omega)
  | succ f ih =>
    intro after db total batches hf hdisj
    have hsortP : (afterFilter src after).Pairwise idLt :=
      hsort.sublist (List.filter_sublist src)
    rw [backfillLoop_succ_telegram]
    by_cases hP : afterFilter src after = []
    · have hb : staticExtract src after B = [] := by
        unfold staticExtract afterFilter at *
        rw [hP]
        exact List.take_nil
      rw [hb, hP]
      simp
    · by_cases hlen : (afterFilter src after).length < B
      · -- terminal partial batch: the whole remainder, fewer than B rows
        have htake : (afterFilter src after).take B = afterFilter src after :=
          List.take_of_length_le (le_of_lt hlen)
        have hb : staticExtract src after B = afterFilter src after := by
          unfold staticExtract; rw [htake]
        have hie : (afterFilter src after).isEmpty = false := by
          cases hq : afterFilter src after with
          | nil => exact absurd hq hP
          | cons a t => rfl
        have hconf : batchHasConflict db.messages (afterFilter src after) = false :=
          batchHasConflict_false _ _ hdisj
        have hdup : batchHasInternalDup (afterFilter src after) = false :=
          internalDup_false_of_sorted _ hsortP
        rw [hb]
        simp only [load_messages_nonempty db _ hP,
          store_messages_ok db _ hP hconf hdup, hie, Bool.false_eq_true, if_false,
          if_pos hlen]
        constructor
        · simp [Nat.div_eq_of_lt hlen]
        · simp [hP]
      · -- full batch of exactly B rows, then recurse past its maximum id
        push_neg at hlen
        have hblen : ((afterFilter src after).take B).length = B := by
          rw [List.length_take]
          exact min_eq_left hlen
        have hbne : (afterFilter src after).take B ≠ [] := by
          apply List.ne_nil_of_length_pos
          rw [hblen]
          omega
        have hie : ((afterFilter src after).take B).isEmpty = false := by
          cases hq : (afterFilter src after).take B with
          | nil => exact absurd hq hbne
          | cons a t => rfl
        have hsortB : ((afterFilter src after).take B).Pairwise idLt :=
          hsortP.sublist (List.take_sublist _ _)
        have hconf : batchHasConflict db.messages ((afterFilter src after).take B) = false :=
          batchHasConflict_false _ _
            (fun m hm m' hm' => hdisj m (List.take_subset _ _ hm) m' hm')
        have hdup : batchHasInternalDup ((afterFilter src after).take B) = false :=
          internalDup_false_of_sorted _ hsortB
        have hadv : afterFilter src (maxIdOf ((afterFilter src after).take B))
            = (afterFilter src after).drop B := afterFilter_advance src after B hsortP hbne
        have hcross := sorted_take_lt_drop (afterFilter src after) B hsortP hbne
        have hb : staticExtract src after B = (afterFilter src after).take B := rfl
        have hnotlt : ¬ ((afterFilter src after).take B).length < B := by
          rw [hblen]; omega
        rw [hb]
        simp only [load_messages_nonempty db _ hbne,
          store_messages_ok db _ hbne hconf hdup, hie, Bool.false_eq_true, if_false,
          if_neg hnotlt]
        have hfuel' : (afterFilter src
            (maxIdOf ((afterFilter src after).take B))).length + 1 ≤ f := by
          rw [hadv, List.length_drop]
          omega
        have hdisj' : ∀ m ∈ afterFilter src (maxIdOf ((afterFilter src after).take B)),
            ∀ m' ∈ (DBState.mk (db.messages ++ (afterFilter src after).take B)).messages,
            pkEq m m' = false := by
          rw [hadv]
          intro m hm m' hm'
          rcases List.mem_append.mp hm' with h' | h'
          · exact hdisj m (List.drop_subset _ _ hm) m' h'
          · apply pkEq_false_of_id_ne
            have hle := mem_le_maxIdOf _ m' h'
            have hgt := hcross m hm
            omega
        obtain ⟨ih1, ih2⟩ := ih (maxIdOf ((afterFilter src after).take B))
          ⟨db.messages ++ (afterFilter src after).take B⟩
          (total + ((afterFilter src after).take B).length) (batches + 1) hfuel' hdisj'
        rw [hadv] at ih1 ih2
        have hdiv : (afterFilter src after).length / B
            = ((afterFilter src after).length - B) / B + 1 := by
          conv_lhs => rw [← Nat.sub_add_cancel hlen]
          rw [Nat.add_div_right _ (by omega)]
        constructor
        · rw [ih1, List.length_drop]
          omega
        · rw [ih2]
          have htot : total + ((afterFilter src after).take B).length
              + ((afterFilter src after).drop B).length
              = total + (afterFilter src after).length := by
            rw [hblen, List.length_drop]
            omega
          have hmaxP : maxIdOf (afterFilter src after)
              = max (maxIdOf ((afterFilter src after).take B))
                    (maxIdOf ((afterFilter src after).drop B)) := by
            conv_lhs => rw [← List.take_append_drop B (afterFilter src after)]
            rw [maxIdOf_append]
          have hlast : (if (afterFilter src after).drop B = []
                then maxIdOf ((afterFilter src after).take B)
                else maxIdOf ((afterFilter src after).drop B))
              = maxIdOf (afterFilter src after) := by
            by_cases hdrop : (afterFilter src after).drop B = []
            · rw [if_pos hdrop, hmaxP, hdrop]
              show _ = max _ (maxIdOf [])
              have : maxIdOf ([] : List Message) = 0 := rfl
              omega
            · rw [if_neg hdrop, hmaxP]
              obtain ⟨m, hm⟩ := List.exists_mem_of_ne_nil _ hdrop
              have h1 := hcross m hm
              have h2 := mem_le_maxIdOf _ m hm
              omega
          rw [htot, hlast, if_neg hP]

/-! ### Claim C1: backfill batching and termination -/

/-- C1: on a static source of exactly `K` messages (positive, strictly
increasing ids, per the extractor contract) and any `batch_limit = B ≥ 1`,
`backfill_flow` stops exactly after the first batch that comes back with
fewer than `B` rows, issuing `ceil(K/B)` extraction batches plus one extra
empty-confirming batch when `B` divides `K` (including `K = 0`), and returns
`total_messages = K` with `last_message_id` the highest message id of the
source. -/
theorem backfill_batch_termination (src : List Message) (B : Nat)
    (hB : 1 ≤ B) (hpos : ∀ m ∈ src, 1 ≤ m.message_id)
    (hsort : src.Pairwise idLt) :
    (backfill_flow "telegram" src ⟨[]⟩ B).2.1
        = (src.length + B - 1) / B + (if src.length % B = 0 then 1 else 0)
    ∧ (backfill_flow "telegram" src ⟨[]⟩ B).2.2
        = Except.ok { status := "completed", total_messages := src.length,
                      last_message_id := maxIdOf src } := by
  have hP0 : afterFilter src 0 = src := by
    unfold afterFilter
    apply List.filter_eq_self.mpr
    intro m hm
    simpa using hpos m hm
  have hmain := backfillLoop_run src B hB hsort (src.length + 1) 0 ⟨[]⟩ 0 0
    (by rw [hP0]) (by intro m hm m' hm'; cases hm')
  rw [hP0] at hmain
  obtain ⟨h1, h2⟩ := hmain
  constructor
  · show (backfillLoop "telegram" src ⟨[]⟩ B 0 0 0 (src.length + 1)).2.1 = _
    rw [h1, batches_formula src.length B hB]
    omega
  · show (backfillLoop "telegram" src ⟨[]⟩ B 0 0 0 (src.length + 1)).2.2 = _
    rw [h2]
    have hlast : (if src = [] then 0 else maxIdOf src) = maxIdOf src := by
      by_cases h : src = [] <;> simp [h, maxIdOf]
    rw [hlast]
    simp

/-- Witness for C1 at concrete inputs: 5 messages, batch limit 2 — three
batches (2, 2, 1), 5 messages in total, last id 5; the ceiling formula gives
`(5 + 1) / 2 + 0 = 3`. -/
theorem backfill_batch_termination_witness :
    (backfill_flow "telegram" (sampleSrc 5) ⟨[]⟩ 2).2.1
        = ((sampleSrc 5).length + 2 - 1) / 2
          + (if (sampleSrc 5).length % 2 = 0 then 1 else 0)
    ∧ (backfill_flow "telegram" (sampleSrc 5) ⟨[]⟩ 2).2.2
        = Except.ok { status := "completed", total_messages := (sampleSrc 5).length,
                      last_message_id := maxIdOf (sampleSrc 5) } :=
  backfill_batch_termination (sampleSrc 5) 2 (by decide) (by decide) (by decide)

/-! ### Claim C2: a second backfill run is not an idempotent no-op -/

/-- C2: the claimed idempotent resume does not hold on the code, and the
code contradicts its own documentation: after a first successful backfill of
a one-message source (first conjunct), a second `backfill_flow` starts again
from `after_id = 0` — it never reads the checkpoint — and re-extracts the
already-stored message (second conjunct), and `store_messages`, whose
comment says `Store messages with replace to handle duplicates` but which
issues a plain `INSERT` via `to_sql(if_exists='append')`, fails on the
duplicate primary key with `IntegrityError` and rolls back, so the second
run fails instead of processing zero messages (third conjunct). -/
theorem backfill_second_run_duplicate_key_failure :
    (backfill_flow "telegram" [sampleMsg 1] ⟨[]⟩ 1000).1 = ⟨[sampleMsg 1]⟩
    ∧ staticExtract [sampleMsg 1] 0 1000 = [sampleMsg 1]
    ∧ (backfill_flow "telegram" [sampleMsg 1]
        (backfill_flow "telegram" [sampleMsg 1] ⟨[]⟩ 1000).1 1000).2.2
      = Except.error "IntegrityError" :=
  ⟨rfl, rfl, rfl⟩

end ConvoETL
